import Mathlib

/-!
Shallow embedding of `src/config.rs` of bgpexplorer: the configuration
ingestion subsystem (`SvcConfig::from_inifile` and its enum parsers).

The model starts from the already-parsed INI mapping
(section name → key name → optional string value), as the subsystem's
contract states; the `ini!` text parser and the filename interpolated
into a few formatted messages are outside the model.  The standard
library string parsers the source calls (`SocketAddr`, `IpAddr`,
`Ipv4Addr` and integer `FromStr`) are modelled executably; IP addresses
are modelled in their IPv4 textual form (IPv6 literals are not part of
any claim).  `WhoIs::from_path` performs file I/O, so it enters the
model as an oracle argument `String → Option WhoIs`; the source calls
`.unwrap()` on its result, which is a process abort, modelled by the
`Res.panicked` outcome distinct from `Res.ok`/`Res.err`.
-/

/-- Rust `str::split(c)`: splits on every occurrence of the character,
keeping empty pieces; the empty string yields one empty piece. -/
def splitChar (sep : Char) : List Char → List (List Char)
  | [] => [[]]
  | c :: rest =>
    let r := splitChar sep rest
    if c = sep then [] :: r
    else
      match r with
      | [] => [[c]]
      | t :: ts => (c :: t) :: ts

/-- Rust `str::trim`: removes whitespace from both ends. -/
def trimChars (cs : List Char) : List Char :=
  ((cs.dropWhile Char.isWhitespace).reverse.dropWhile Char.isWhitespace).reverse

/-- Decimal value of a digit list (callers check `isDigits` first). -/
def digitsToNat (cs : List Char) : Nat :=
  cs.foldl (fun a c => a * 10 + (c.toNat - 48)) 0

/-- Nonempty and all decimal digits. -/
def isDigits (cs : List Char) : Bool :=
  !cs.isEmpty && cs.all Char.isDigit

/-- One IPv4 octet as Rust std parses it: decimal, no leading zero
(unless the single digit 0), value at most 255. -/
def parseOctet (cs : List Char) : Option Nat :=
  if isDigits cs then
    if cs.length > 1 && cs.headD ' ' = '0' then none
    else
      let n := digitsToNat cs
      if n ≤ 255 then some n else none
  else none

/-- IPv4 address, four octets. -/
structure Ipv4Addr where
  a : Nat
  b : Nat
  c : Nat
  d : Nat
deriving DecidableEq, Repr

/-- IP address in its IPv4 textual form (IPv6 literals not modelled). -/
inductive IpAddr where
  | v4 : Ipv4Addr → IpAddr
deriving DecidableEq, Repr

/-- Socket address: IP and port. -/
structure SocketAddr where
  ip : IpAddr
  port : Nat
deriving DecidableEq, Repr

/-- Rust `Ipv4Addr::from_str`: exactly four dot-separated octets. -/
def parseIpv4Core (cs : List Char) : Option Ipv4Addr :=
  match splitChar '.' cs with
  | [pa, pb, pc, pd] =>
    match parseOctet pa, parseOctet pb, parseOctet pc, parseOctet pd with
    | some na, some nb, some nc, some nd => some ⟨na, nb, nc, nd⟩
    | _, _, _, _ => none
  | _ => none

/-- Rust `Ipv4Addr::from_str` on a string. -/
def parseIpv4 (s : String) : Option Ipv4Addr :=
  parseIpv4Core s.data

/-- Rust `IpAddr::from_str`, restricted to IPv4 textual forms. -/
def parseIpAddr (s : String) : Option IpAddr :=
  (parseIpv4 s).map IpAddr.v4

/-- Port as Rust std's socket-address parser reads it: decimal digits
(zero prefix allowed), value at most 65535. -/
def parsePort (cs : List Char) : Option Nat :=
  if isDigits cs then
    let n := digitsToNat cs
    if n ≤ 65535 then some n else none
  else none

/-- Rust `SocketAddr::from_str`, restricted to the IPv4 `a.b.c.d:port`
form (IPv6 bracket forms not modelled). -/
def parseSocketAddrCore (cs : List Char) : Option SocketAddr :=
  match splitChar ':' cs with
  | [ipcs, portcs] =>
    match parseIpv4Core ipcs, parsePort portcs with
    | some ip, some p => some ⟨IpAddr.v4 ip, p⟩
    | _, _ => none
  | _ => none

/-- Rust `SocketAddr::from_str` on a string. -/
def parseSocketAddr (s : String) : Option SocketAddr :=
  parseSocketAddrCore s.data

/-- Rust unsigned-integer `FromStr` (`u32`/`u64`/`usize`): optional
leading `+`, at least one digit, overflow beyond `maxVal` fails. -/
def parseUnsigned (maxVal : Nat) (s : String) : Option Nat :=
  let cs := match s.data with
    | '+' :: rest => rest
    | cs => cs
  if isDigits cs then
    let n := digitsToNat cs
    if n ≤ maxVal then some n else none
  else none

/-- Rust `u32::from_str`. -/
def parseU32 (s : String) : Option Nat := parseUnsigned 4294967295 s

/-- Rust `u64::from_str`. -/
def parseU64 (s : String) : Option Nat := parseUnsigned 18446744073709551615 s

/-- Rust `usize::from_str` (64-bit target). -/
def parseUsize (s : String) : Option Nat := parseU64 s

/-- Rust `i64::from_str`: optional sign, digits, 64-bit signed range. -/
def parseI64 (s : String) : Option Int :=
  match s.data with
  | '-' :: rest =>
    if isDigits rest then
      let n := digitsToNat rest
      if n ≤ 9223372036854775808 then some (-(n : Int)) else none
    else none
  | '+' :: rest =>
    if isDigits rest then
      let n := digitsToNat rest
      if n ≤ 9223372036854775807 then some ((n : Int)) else none
    else none
  | cs =>
    if isDigits cs then
      let n := digitsToNat cs
      if n ≤ 9223372036854775807 then some ((n : Int)) else none
    else none

/-- Peer protocol mode (`enum PeerMode`). -/
inductive PeerMode where
  | BgpActive
  | BgpPassive
  | BmpPassive
  | BmpActive
deriving DecidableEq, Repr

/-- History store mode (`enum HistoryChangeMode`). -/
inductive HistoryChangeMode where
  | EveryUpdate
  | OnlyDiffer
deriving DecidableEq, Repr

/-- `enum ErrorConfig`: a static or an owned message. -/
inductive ErrorConfig where
  | static : String → ErrorConfig
  | str : String → ErrorConfig
deriving DecidableEq, Repr

/-- `ErrorConfig::from_str`. -/
def ErrorConfig.from_str (m : String) : ErrorConfig := ErrorConfig.static m

/-- `ErrorConfig::from_string`. -/
def ErrorConfig.from_string (m : String) : ErrorConfig := ErrorConfig.str m

/-- The `Display` rendering of `ErrorConfig` (used where the source
interpolates an `ErrorConfig` into a formatted message). -/
def ErrorConfig.display : ErrorConfig → String
  | ErrorConfig.static s => "ErrorConfig: " ++ s
  | ErrorConfig.str s => "ErrorConfig: " ++ s

/-- `PeerMode::from_str`: split on the space character, match the first
piece.  The source indexes `sp[0]`, which would abort the process were
the split empty; that impossible branch is marked by the sentinel error
below and proved unreachable. -/
def PeerMode.from_str (s : String) : Except ErrorConfig PeerMode :=
  match splitChar ' ' s.data with
  | [] => Except.error (ErrorConfig.static "PANIC: split produced no pieces")
  | t :: _ =>
    if t = "bgpactive".data then Except.ok PeerMode.BgpActive
    else if t = "bgppassive".data then Except.ok PeerMode.BgpPassive
    else if t = "bmppassive".data then Except.ok PeerMode.BmpPassive
    else if t = "bmpactive".data then Except.ok PeerMode.BmpActive
    else Except.error (ErrorConfig.from_str "invalid mode")

/-- `HistoryChangeMode::from_str`: same shape as `PeerMode::from_str`. -/
def HistoryChangeMode.from_str (s : String) : Except ErrorConfig HistoryChangeMode :=
  match splitChar ' ' s.data with
  | [] => Except.error (ErrorConfig.static "PANIC: split produced no pieces")
  | t :: _ =>
    if t = "every".data then Except.ok HistoryChangeMode.EveryUpdate
    else if t = "differ".data then Except.ok HistoryChangeMode.OnlyDiffer
    else Except.error (ErrorConfig.from_str "invalid history mode")

/-- Opaque whois configuration handle (`whois_rust::WhoIs`); its content
never matters to the configuration logic. -/
structure WhoIs where
  handle : String
deriving DecidableEq, Repr

/-- `chrono::Duration`, tracked as whole seconds (the source only ever
builds it with `Duration::seconds`/`Duration::minutes`). -/
structure Duration where
  secs : Int
deriving DecidableEq, Repr

/-- `chrono::Duration::seconds`. -/
def Duration.seconds (n : Int) : Duration := ⟨n⟩

/-- `chrono::Duration::minutes`. -/
def Duration.minutes (n : Int) : Duration := ⟨n * 60⟩

/-- The outcome of the loader: a value, a returned `ErrorConfig`, or a
process abort (Rust `unwrap` panic). -/
inductive Res (α : Type) where
  | ok : α → Res α
  | err : ErrorConfig → Res α
  | panicked : Res α
deriving DecidableEq, Repr

/-- One INI section as parsed: key → optional value. -/
abbrev IniSection := List (String × Option String)

/-- The parsed INI mapping: section name → section. -/
abbrev IniFile := List (String × IniSection)

/-- Key lookup in a section: `none` = key absent, `some none` = key
present without a value, `some (some s)` = key present with value. -/
def secFind (sec : IniSection) (k : String) : Option (Option String) :=
  (sec.find? (fun p => p.1 = k)).map Prod.snd

/-- Section lookup in the parsed mapping. -/
def iniFind (conf : IniFile) (name : String) : Option IniSection :=
  (conf.find? (fun p => p.1 = name)).map Prod.snd

/-- The assembled configuration (`struct SvcConfig`). -/
structure SvcConfig where
  routerid : Ipv4Addr
  bgppeeras : Nat
  bgppeer : Option SocketAddr
  protolisten : Option SocketAddr
  bmppeer : Option SocketAddr
  httplisten : SocketAddr
  httproot : String
  historydepth : Nat
  httptimeout : Nat
  historymode : HistoryChangeMode
  whoisconfig : WhoIs
  whoisdb : String
  whoisreqtimeout : Nat
  whoiscachesecs : Int
  whoisdnses : List SocketAddr
  peermode : PeerMode
  purge_after_withdraws : Nat
  purge_every : Duration
deriving DecidableEq, Repr

/-- The `bgppeer` block of `from_inifile`: full socket-address parse,
bare-IP fallback with port 179, invalid value fatal; absent is fatal
exactly under `BgpActive`. -/
def bgppeerOf (svcsection : IniSection) (peermode : PeerMode) :
    Res (Option SocketAddr) :=
  match secFind svcsection "bgppeer" with
  | some none => Res.err (ErrorConfig.from_str "invalid bgppeer was specified")
  | some (some s) =>
    match parseSocketAddr s with
    | some a => Res.ok (some a)
    | none =>
      match parseIpAddr s with
      | none => Res.err (ErrorConfig.from_str "invalid bgppeer was specified")
      | some peerip => Res.ok (some (SocketAddr.mk peerip 179))
  | none =>
    if peermode = PeerMode.BgpActive then
      Res.err (ErrorConfig.from_str "bgppeer was not specified")
    else Res.ok none

/-- The `bmppeer` block: as `bgppeer` with default port 632; absent is
fatal exactly under `BmpActive`. -/
def bmppeerOf (svcsection : IniSection) (peermode : PeerMode) :
    Res (Option SocketAddr) :=
  match secFind svcsection "bmppeer" with
  | some none => Res.err (ErrorConfig.from_str "invalid bmppeer was specified")
  | some (some s) =>
    match parseSocketAddr s with
    | some a => Res.ok (some a)
    | none =>
      match parseIpAddr s with
      | none => Res.err (ErrorConfig.from_str "invalid bmppeer was specified")
      | some peerip => Res.ok (some (SocketAddr.mk peerip 632))
  | none =>
    if peermode = PeerMode.BmpActive then
      Res.err (ErrorConfig.from_str "bmppeer was not specified")
    else Res.ok none

/-- The `protolisten` block: full parse, bare-IP fallback with port 179,
and — unlike the peers — a second fallback to `0.0.0.0` when even the
bare-IP parse fails; absent is fatal under the two passive modes. -/
def protolistenOf (svcsection : IniSection) (peermode : PeerMode) :
    Res (Option SocketAddr) :=
  match secFind svcsection "protolisten" with
  | some none => Res.err (ErrorConfig.from_str "invalid protolisten was specified")
  | some (some s) =>
    match parseSocketAddr s with
    | some a => Res.ok (some a)
    | none =>
      let lip : IpAddr :=
        match parseIpAddr s with
        | none => IpAddr.v4 (Ipv4Addr.mk 0 0 0 0)
        | some v => v
      Res.ok (some (SocketAddr.mk lip 179))
  | none =>
    if peermode = PeerMode.BmpPassive ∨ peermode = PeerMode.BgpPassive then
      Res.err (ErrorConfig.from_str "protolisten was not specified")
    else Res.ok none

/-- The `routerid` block: IPv4 literal, default `1.1.1.1` when absent,
parse failure on a present value fatal.  (The interpolated library error
text is abstracted as "invalid value".) -/
def routeridOf (svcsection : IniSection) : Res Ipv4Addr :=
  match secFind svcsection "routerid" with
  | some none => Res.err (ErrorConfig.from_str "invalid routerid was specified")
  | some (some s) =>
    match parseIpv4 s with
    | none => Res.err (ErrorConfig.from_string "Invalid routerid - invalid value")
    | some a => Res.ok a
  | none =>
    match parseIpv4 "1.1.1.1" with
    | none => Res.err (ErrorConfig.from_string "Invalid routerid - invalid value")
    | some a => Res.ok a

/-- The `peeras` block: `u32`, default 0, parse failure fatal. -/
def bgppeerasOf (svcsection : IniSection) : Res Nat :=
  match secFind svcsection "peeras" with
  | some none => Res.err (ErrorConfig.from_str "invalid bgppeeras was specified")
  | some (some s) =>
    match parseU32 s with
    | none => Res.err (ErrorConfig.from_string "Invalid bgp peer as - invalid value")
    | some a => Res.ok a
  | none => Res.ok 0

/-- The `httplisten` block: the value string (or `"0.0.0.0:8080"` when
the key is absent or valueless) parsed as a socket address; parse
failure fatal. -/
def httplistenOf (mainsection : IniSection) : Res SocketAddr :=
  match parseSocketAddr
      (match secFind mainsection "httplisten" with
       | some (some s) => s
       | some none => "0.0.0.0:8080"
       | none => "0.0.0.0:8080") with
  | some sa => Res.ok sa
  | none => Res.err (ErrorConfig.from_string "Invalid httplisten - invalid value")

/-- The `httptimeout` block: `u64` with `unwrap_or(120)` — never fails. -/
def httptimeoutOf (mainsection : IniSection) : Nat :=
  match secFind mainsection "httptimeout" with
  | some (some s) => (parseU64 s).getD 120
  | some none => 120
  | none => 120

/-- The `httproot` block: plain string, default `"./contrib"`. -/
def httprootOf (mainsection : IniSection) : String :=
  match secFind mainsection "httproot" with
  | some (some s) => s
  | some none => "./contrib"
  | none => "./contrib"

/-- The `historydepth` block: `usize`, default 10, parse failure fatal. -/
def historydepthOf (mainsection : IniSection) : Res Nat :=
  match secFind mainsection "historydepth" with
  | some none => Res.err (ErrorConfig.from_str "invalid historydepth was specified")
  | some (some s) =>
    match parseUsize s with
    | none => Res.err (ErrorConfig.from_string "Invalid historydepth - invalid value")
    | some a => Res.ok a
  | none => Res.ok 10

/-- The `historymode` block: enum parse, default `OnlyDiffer`, parse
failure fatal with the parser's own error interpolated. -/
def historymodeOf (mainsection : IniSection) : Res HistoryChangeMode :=
  match secFind mainsection "historymode" with
  | some none => Res.err (ErrorConfig.from_str "invalid historymode was specified")
  | some (some s) =>
    match HistoryChangeMode.from_str s with
    | Except.error e =>
      Res.err (ErrorConfig.from_string ("Invalid historymode - " ++ e.display))
    | Except.ok a => Res.ok a
  | none => Res.ok HistoryChangeMode.OnlyDiffer

/-- The `purge_after_withdraws` block: `u64`, default 0, parse failure
fatal. -/
def purgeAfterWithdrawsOf (mainsection : IniSection) : Res Nat :=
  match secFind mainsection "purge_after_withdraws" with
  | some none =>
    Res.err (ErrorConfig.from_str "invalid purge_after_withdraws was specified")
  | some (some s) =>
    match parseU64 s with
    | none =>
      Res.err (ErrorConfig.from_string "Invalid purge_after_withdraws - invalid value")
    | some a => Res.ok a
  | none => Res.ok 0

/-- The `purge_every` block: `i64` seconds, default 5 minutes, parse
failure fatal. -/
def purgeEveryOf (mainsection : IniSection) : Res Duration :=
  match secFind mainsection "purge_every" with
  | some none => Res.err (ErrorConfig.from_str "invalid purge_every was specified")
  | some (some s) =>
    match parseI64 s with
    | none => Res.err (ErrorConfig.from_string "Invalid purge_every - invalid value")
    | some a => Res.ok (Duration.seconds a)
  | none => Res.ok (Duration.minutes 5)

/-- The `whois_request_timeout` block: `u64` with `unwrap_or(30)`. -/
def whoisreqtimeoutOf (mainsection : IniSection) : Nat :=
  match secFind mainsection "whois_request_timeout" with
  | some (some s) => (parseU64 s).getD 30
  | some none => 30
  | none => 30

/-- The `whois_cache_seconds` block: `i64` with `unwrap_or(1800)`. -/
def whoiscachesecsOf (mainsection : IniSection) : Int :=
  match secFind mainsection "whois_cache_seconds" with
  | some (some s) => (parseI64 s).getD 1800
  | some none => 1800
  | none => 1800

/-- The `whoisjsonconfig` block: `WhoIs::from_path(s).unwrap()` — the
oracle `wfp` stands for the file load, and its failure is a panic, not a
returned error; an absent or valueless key is the returned error
`Invalid whoisjsonconfig`. -/
def whoisOf (mainsection : IniSection) (wfp : String → Option WhoIs) : Res WhoIs :=
  match secFind mainsection "whoisjsonconfig" with
  | some (some s) =>
    match wfp s with
    | some w => Res.ok w
    | none => Res.panicked
  | some none => Res.err (ErrorConfig.from_str "Invalid whoisjsonconfig")
  | none => Res.err (ErrorConfig.from_str "Invalid whoisjsonconfig")

/-- The `whoisdb` block: plain string, default `"whoiscache.db"`,
valueless key fatal. -/
def whoisdbOf (mainsection : IniSection) : Res String :=
  match secFind mainsection "whoisdb" with
  | some (some s) => Res.ok s
  | some none => Res.err (ErrorConfig.from_str "Invalid whoisdb")
  | none => Res.ok "whoiscache.db"

/-- One `whoisdns` entry as the loop body parses it: trim, full
socket-address parse, else the trimmed entry suffixed with `":53"`;
both failing yields nothing (the entry is only logged). -/
def parseDnsEntry (cs : List Char) : Option SocketAddr :=
  match parseSocketAddrCore (trimChars cs) with
  | some sck => some sck
  | none => parseSocketAddrCore (trimChars cs ++ ":53".data)

/-- The `dnses.is_empty()` fallback: an empty list becomes
`["1.1.1.1:53".parse().unwrap()]` (the unwrap modelled faithfully: a
parse failure would be a panic, and is proved away). -/
def finishDnses (dnses : List SocketAddr) : Res (List SocketAddr) :=
  if dnses.isEmpty then
    match parseSocketAddr "1.1.1.1:53" with
    | some a => Res.ok [a]
    | none => Res.panicked
  else Res.ok dnses

/-- The `whoisdns` block: comma-split loop pushing each entry that
parses (directly or with the `":53"` suffix), then the empty-list
fallback; a valueless key is fatal. -/
def whoisdnsesOf (mainsection : IniSection) : Res (List SocketAddr) :=
  match secFind mainsection "whoisdns" with
  | some none => Res.err (ErrorConfig.from_str "Invalid whoisdns")
  | some (some s) => finishDnses ((splitChar ',' s.data).filterMap parseDnsEntry)
  | none => finishDnses []

/-- The field blocks of `SvcConfig::from_inifile` in source order, once
the main section, the session section and the raw `mode` value are
resolved (each early `return` of the source is an `err` branch passed
through). -/
def loadFields (mainsection svcsection : IniSection) (mode : String)
    (wfp : String → Option WhoIs) : Res SvcConfig :=
  match PeerMode.from_str mode with
  | Except.error e => Res.err e
  | Except.ok peermode =>
  match bgppeerOf svcsection peermode with
  | Res.err e => Res.err e
  | Res.panicked => Res.panicked
  | Res.ok bgppeer =>
  match bmppeerOf svcsection peermode with
  | Res.err e => Res.err e
  | Res.panicked => Res.panicked
  | Res.ok bmppeer =>
  match protolistenOf svcsection peermode with
  | Res.err e => Res.err e
  | Res.panicked => Res.panicked
  | Res.ok protolisten =>
  match routeridOf svcsection with
  | Res.err e => Res.err e
  | Res.panicked => Res.panicked
  | Res.ok routerid =>
  match bgppeerasOf svcsection with
  | Res.err e => Res.err e
  | Res.panicked => Res.panicked
  | Res.ok bgppeeras =>
  match httplistenOf mainsection with
  | Res.err e => Res.err e
  | Res.panicked => Res.panicked
  | Res.ok httplisten =>
  let httptimeout := httptimeoutOf mainsection
  let httproot := httprootOf mainsection
  match historydepthOf mainsection with
  | Res.err e => Res.err e
  | Res.panicked => Res.panicked
  | Res.ok historydepth =>
  match historymodeOf mainsection with
  | Res.err e => Res.err e
  | Res.panicked => Res.panicked
  | Res.ok historymode =>
  match purgeAfterWithdrawsOf mainsection with
  | Res.err e => Res.err e
  | Res.panicked => Res.panicked
  | Res.ok purge_after_withdraws =>
  match purgeEveryOf mainsection with
  | Res.err e => Res.err e
  | Res.panicked => Res.panicked
  | Res.ok purge_every =>
  let whoisreqtimeout := whoisreqtimeoutOf mainsection
  let whoiscachesecs := whoiscachesecsOf mainsection
  match whoisOf mainsection wfp with
  | Res.err e => Res.err e
  | Res.panicked => Res.panicked
  | Res.ok whois =>
  match whoisdbOf mainsection with
  | Res.err e => Res.err e
  | Res.panicked => Res.panicked
  | Res.ok whoisdb =>
  match whoisdnsesOf mainsection with
  | Res.err e => Res.err e
  | Res.panicked => Res.panicked
  | Res.ok dnses =>
  Res.ok
    { routerid := routerid
      bgppeer := bgppeer
      bmppeer := bmppeer
      protolisten := protolisten
      bgppeeras := bgppeeras
      httplisten := httplisten
      httptimeout := httptimeout
      httproot := httproot
      historydepth := historydepth
      historymode := historymode
      whoisconfig := whois
      whoisdb := whoisdb
      whoisdnses := dnses
      whoisreqtimeout := whoisreqtimeout
      whoiscachesecs := whoiscachesecs
      peermode := peermode
      purge_after_withdraws := purge_after_withdraws
      purge_every := purge_every }

/-- `SvcConfig::from_inifile`, from the already-parsed mapping.  `wfp`
is the `WhoIs::from_path` file-load oracle.  Section, session and mode
resolution with their distinct fatal errors, then the field blocks
(`loadFields`); formatted messages keep their text with the filename
interpolation omitted. -/
def SvcConfig.from_inifile (conf : IniFile) (wfp : String → Option WhoIs) :
    Res SvcConfig :=
  match iniFind conf "main" with
  | none => Res.err (ErrorConfig.from_str "Missing section 'main' in ini file")
  | some mainsection =>
  match secFind mainsection "session" with
  | none =>
    Res.err (ErrorConfig.from_string "Missing value 'session' in [main] section ini file")
  | some none => Res.err (ErrorConfig.from_str "No session specified")
  | some (some session) =>
  match iniFind conf session with
  | none =>
    Res.err (ErrorConfig.from_string ("Missing section '" ++ session ++ "' in ini file"))
  | some svcsection =>
  match secFind svcsection "mode" with
  | none =>
    Res.err (ErrorConfig.from_string
      ("Missing value 'mode' in [" ++ session ++ "] section ini file"))
  | some none =>
    Res.err (ErrorConfig.from_str
      "No mode (bgpactive|bgppassive|bmpactive|bmppassive) specified")
  | some (some mode) => loadFields mainsection svcsection mode wfp

/-!  ## Inversion and split lemmas -/

/-- Resolved header: once the main section, session name, session
section and raw mode value are all found, the load is the field chain. -/
theorem from_inifile_resolve (conf : IniFile) (wfp : String → Option WhoIs)
    (m svc : IniSection) (sess ms : String)
    (hmain : iniFind conf "main" = some m)
    (hsess : secFind m "session" = some (some sess))
    (hsvc : iniFind conf sess = some svc)
    (hmode : secFind svc "mode" = some (some ms)) :
    SvcConfig.from_inifile conf wfp = loadFields m svc ms wfp := by
  unfold SvcConfig.from_inifile
  simp only [hmain, hsess, hsvc, hmode]

/-- A successful load pins every field of the result to its extraction
block's successful outcome (the source's single pass, first failure
aborts). -/
theorem from_inifile_ok_inv (conf : IniFile) (wfp : String → Option WhoIs)
    (cfg : SvcConfig) (h : SvcConfig.from_inifile conf wfp = Res.ok cfg) :
    ∃ m sess svc ms,
      iniFind conf "main" = some m ∧
      secFind m "session" = some (some sess) ∧
      iniFind conf sess = some svc ∧
      secFind svc "mode" = some (some ms) ∧
      PeerMode.from_str ms = Except.ok cfg.peermode ∧
      bgppeerOf svc cfg.peermode = Res.ok cfg.bgppeer ∧
      bmppeerOf svc cfg.peermode = Res.ok cfg.bmppeer ∧
      protolistenOf svc cfg.peermode = Res.ok cfg.protolisten ∧
      routeridOf svc = Res.ok cfg.routerid ∧
      bgppeerasOf svc = Res.ok cfg.bgppeeras ∧
      httplistenOf m = Res.ok cfg.httplisten ∧
      cfg.httptimeout = httptimeoutOf m ∧
      cfg.httproot = httprootOf m ∧
      historydepthOf m = Res.ok cfg.historydepth ∧
      historymodeOf m = Res.ok cfg.historymode ∧
      purgeAfterWithdrawsOf m = Res.ok cfg.purge_after_withdraws ∧
      purgeEveryOf m = Res.ok cfg.purge_every ∧
      cfg.whoisreqtimeout = whoisreqtimeoutOf m ∧
      cfg.whoiscachesecs = whoiscachesecsOf m ∧
      whoisOf m wfp = Res.ok cfg.whoisconfig ∧
      whoisdbOf m = Res.ok cfg.whoisdb ∧
      whoisdnsesOf m = Res.ok cfg.whoisdnses := by
  unfold SvcConfig.from_inifile loadFields at h
  repeat' split at h
  all_goals try (cases h)
  exact ⟨_, _, _, _, by assumption, by assumption, by assumption, by assumption,
    by assumption, by assumption, by assumption, by assumption, by assumption,
    by assumption, by assumption, rfl, rfl, by assumption, by assumption,
    by assumption, by assumption, rfl, rfl, by assumption, by assumption,
    by assumption⟩

/-- Rust `split` never yields an empty piece list. -/
theorem splitChar_ne_nil (sep : Char) (cs : List Char) : splitChar sep cs ≠ [] := by
  induction cs with
  | nil => simp [splitChar]
  | cons c rest ih =>
    simp only [splitChar]
    split
    · simp
    · split
      · simp
      · simp

/-- A list without the separator splits into itself alone. -/
theorem splitChar_eq_single (sep : Char) (cs : List Char) (h : sep ∉ cs) :
    splitChar sep cs = [cs] := by
  induction cs with
  | nil => rfl
  | cons c rest ih =>
    simp only [List.mem_cons, not_or] at h
    simp only [splitChar]
    rw [if_neg (fun hc => h.1 hc.symm)]
    rw [ih h.2]

/-- Splitting at the first separator occurrence. -/
theorem splitChar_append (sep : Char) (l₁ l₂ : List Char) (h : sep ∉ l₁) :
    splitChar sep (l₁ ++ sep :: l₂) = l₁ :: splitChar sep l₂ := by
  induction l₁ with
  | nil => simp [splitChar]
  | cons c rest ih =>
    simp only [List.mem_cons, not_or] at h
    simp only [List.cons_append, splitChar]
    rw [if_neg (fun hc => h.1 hc.symm)]
    simp only [List.append_eq]
    rw [ih h.2]

/-!  ## C10: totality of the two enum parsers -/

/-- C10: splitting any string on the space character yields at least one
piece, so the parsers' first-piece indexing never aborts (the sentinel
branch of `PeerMode.from_str` / `HistoryChangeMode.from_str` standing
for the would-be `sp[0]` panic is unreachable), and every string is
mapped to a variant or an error value. -/
theorem claim_C10_mode_parsers_total :
    ∀ s : String,
      splitChar ' ' s.data ≠ [] ∧
      PeerMode.from_str s ≠
        Except.error (ErrorConfig.static "PANIC: split produced no pieces") ∧
      HistoryChangeMode.from_str s ≠
        Except.error (ErrorConfig.static "PANIC: split produced no pieces") := by
  intro s
  refine ⟨splitChar_ne_nil _ _, ?_, ?_⟩
  · unfold PeerMode.from_str
    split
    · rename_i heq
      exact absurd heq (splitChar_ne_nil _ _)
    · repeat' split
      all_goals simp [ErrorConfig.from_str]
  · unfold HistoryChangeMode.from_str
    split
    · rename_i heq
      exact absurd heq (splitChar_ne_nil _ _)
    · repeat' split
      all_goals simp [ErrorConfig.from_str]

/-!  ## C7: first-piece matching of the enumerated fields -/

/-- Split on any whitespace character (the spec sentence's reading of
"split on whitespace"), same shape as `splitChar`. -/
def splitWhite : List Char → List (List Char)
  | [] => [[]]
  | c :: rest =>
    let r := splitWhite rest
    if c.isWhitespace then [] :: r
    else
      match r with
      | [] => [[c]]
      | t :: ts => (c :: t) :: ts

/-- Modelled from the spec: `PeerMode` parsing as C7's sentence reads —
the value split on whitespace (any whitespace character) rather than on
the space character only, first token matched against the vocabulary. -/
def PeerMode.from_str_whitespace (s : String) : Except ErrorConfig PeerMode :=
  match splitWhite s.data with
  | [] => Except.error (ErrorConfig.static "PANIC: split produced no pieces")
  | t :: _ =>
    if t = "bgpactive".data then Except.ok PeerMode.BgpActive
    else if t = "bgppassive".data then Except.ok PeerMode.BgpPassive
    else if t = "bmppassive".data then Except.ok PeerMode.BmpPassive
    else if t = "bmpactive".data then Except.ok PeerMode.BmpActive
    else Except.error (ErrorConfig.from_str "invalid mode")

/-- C7 counterexample: the code splits on the space character only, not
on whitespace.  On the mode value `"bgpactive\tx"` the claim's
whitespace-splitting reading finds first token `bgpactive` and accepts,
while `PeerMode::from_str` rejects. -/
theorem claim_C7_counterexample :
    PeerMode.from_str_whitespace "bgpactive\tx" = Except.ok PeerMode.BgpActive ∧
    PeerMode.from_str "bgpactive\tx" =
      Except.error (ErrorConfig.static "invalid mode") :=
  ⟨rfl, rfl⟩

/-- C7 amended: every present `mode` or `historymode` value is split on
the space character (other whitespace does not separate); only the first
piece is matched against the fixed vocabulary, a first piece outside the
vocabulary is the named parse error, and trailing pieces are ignored. -/
theorem claim_C7_first_space_piece :
    (∀ t rest : String, ' ' ∉ t.data →
        PeerMode.from_str (t ++ " " ++ rest) = PeerMode.from_str t) ∧
    (∀ t rest : String, ' ' ∉ t.data →
        HistoryChangeMode.from_str (t ++ " " ++ rest) = HistoryChangeMode.from_str t) ∧
    (∀ (s : String) (t : List Char) (ts : List (List Char)),
        splitChar ' ' s.data = t :: ts →
        t ≠ "bgpactive".data → t ≠ "bgppassive".data →
        t ≠ "bmppassive".data → t ≠ "bmpactive".data →
        PeerMode.from_str s = Except.error (ErrorConfig.static "invalid mode")) ∧
    (∀ (s : String) (t : List Char) (ts : List (List Char)),
        splitChar ' ' s.data = t :: ts →
        t ≠ "every".data → t ≠ "differ".data →
        HistoryChangeMode.from_str s =
          Except.error (ErrorConfig.static "invalid history mode")) := by
  refine ⟨?_, ?_, ?_, ?_⟩
  · intro t rest h
    unfold PeerMode.from_str
    have hd : (t ++ " " ++ rest).data = t.data ++ ' ' :: rest.data := by
      simp [String.data_append]
    rw [hd, splitChar_append _ _ _ h, splitChar_eq_single _ _ h]
  · intro t rest h
    unfold HistoryChangeMode.from_str
    have hd : (t ++ " " ++ rest).data = t.data ++ ' ' :: rest.data := by
      simp [String.data_append]
    rw [hd, splitChar_append _ _ _ h, splitChar_eq_single _ _ h]
  · intro s t ts hsplit h1 h2 h3 h4
    unfold PeerMode.from_str
    rw [hsplit]
    simp only [if_neg h1, if_neg h2, if_neg h3, if_neg h4]
    rfl
  · intro s t ts hsplit h1 h2
    unfold HistoryChangeMode.from_str
    rw [hsplit]
    simp only [if_neg h1, if_neg h2]
    rfl

/-- The `bgppeer` block returns, never aborts. -/
theorem bgppeerOf_ne_panicked (svc : IniSection) (pm : PeerMode) :
    bgppeerOf svc pm ≠ Res.panicked := by
  intro h
  unfold bgppeerOf at h
  repeat' split at h
  all_goals cases h

/-- The `bmppeer` block returns, never aborts. -/
theorem bmppeerOf_ne_panicked (svc : IniSection) (pm : PeerMode) :
    bmppeerOf svc pm ≠ Res.panicked := by
  intro h
  unfold bmppeerOf at h
  repeat' split at h
  all_goals cases h

/-- The `protolisten` block returns, never aborts. -/
theorem protolistenOf_ne_panicked (svc : IniSection) (pm : PeerMode) :
    protolistenOf svc pm ≠ Res.panicked := by
  intro h
  unfold protolistenOf at h
  repeat' split at h
  all_goals cases h

/-- The `routerid` block returns, never aborts. -/
theorem routeridOf_ne_panicked (svc : IniSection) :
    routeridOf svc ≠ Res.panicked := by
  intro h
  unfold routeridOf at h
  repeat' split at h
  all_goals cases h

/-- The `peeras` block returns, never aborts. -/
theorem bgppeerasOf_ne_panicked (svc : IniSection) :
    bgppeerasOf svc ≠ Res.panicked := by
  intro h
  unfold bgppeerasOf at h
  repeat' split at h
  all_goals cases h

/-- The `httplisten` block returns, never aborts. -/
theorem httplistenOf_ne_panicked (m : IniSection) :
    httplistenOf m ≠ Res.panicked := by
  intro h
  unfold httplistenOf at h
  repeat' split at h
  all_goals cases h

/-- The `historydepth` block returns, never aborts. -/
theorem historydepthOf_ne_panicked (m : IniSection) :
    historydepthOf m ≠ Res.panicked := by
  intro h
  unfold historydepthOf at h
  repeat' split at h
  all_goals cases h

/-- The `historymode` block returns, never aborts. -/
theorem historymodeOf_ne_panicked (m : IniSection) :
    historymodeOf m ≠ Res.panicked := by
  intro h
  unfold historymodeOf at h
  repeat' split at h
  all_goals cases h

/-- The `purge_after_withdraws` block returns, never aborts. -/
theorem purgeAfterWithdrawsOf_ne_panicked (m : IniSection) :
    purgeAfterWithdrawsOf m ≠ Res.panicked := by
  intro h
  unfold purgeAfterWithdrawsOf at h
  repeat' split at h
  all_goals cases h

/-- The `purge_every` block returns, never aborts. -/
theorem purgeEveryOf_ne_panicked (m : IniSection) :
    purgeEveryOf m ≠ Res.panicked := by
  intro h
  unfold purgeEveryOf at h
  repeat' split at h
  all_goals cases h

/-- The `whoisdb` block returns, never aborts. -/
theorem whoisdbOf_ne_panicked (m : IniSection) :
    whoisdbOf m ≠ Res.panicked := by
  intro h
  unfold whoisdbOf at h
  repeat' split at h
  all_goals cases h

/-- The fallback push's `"1.1.1.1:53".parse().unwrap()` cannot abort:
the constant parses. -/
theorem finishDnses_ne_panicked (l : List SocketAddr) :
    finishDnses l ≠ Res.panicked := by
  intro h
  unfold finishDnses at h
  split at h
  · rw [show parseSocketAddr "1.1.1.1:53" =
      some ⟨IpAddr.v4 ⟨1, 1, 1, 1⟩, 53⟩ from rfl] at h
    simp at h
  · cases h

/-- The `whoisdns` block returns, never aborts. -/
theorem whoisdnsesOf_ne_panicked (m : IniSection) :
    whoisdnsesOf m ≠ Res.panicked := by
  intro h
  unfold whoisdnsesOf at h
  repeat' split at h
  all_goals first
  | cases h
  | exact finishDnses_ne_panicked _ h

/-- The `whoisjsonconfig` block aborts exactly when the key carries a
value whose file load fails. -/
theorem whoisOf_panicked_inv (m : IniSection) (wfp : String → Option WhoIs)
    (h : whoisOf m wfp = Res.panicked) :
    ∃ s, secFind m "whoisjsonconfig" = some (some s) ∧ wfp s = none := by
  unfold whoisOf at h
  repeat' split at h
  all_goals try (cases h)
  exact ⟨_, by assumption, by assumption⟩

/-- The loader aborts only through the `whoisjsonconfig` unwrap: a
panic outcome pins every earlier block to a successful outcome and the
whois key to a present value whose file load fails. -/
theorem from_inifile_panicked_inv (conf : IniFile) (wfp : String → Option WhoIs)
    (h : SvcConfig.from_inifile conf wfp = Res.panicked) :
    ∃ m sess svc ms pm bp mp pl rid pas hl hd hm paw pe s,
      iniFind conf "main" = some m ∧
      secFind m "session" = some (some sess) ∧
      iniFind conf sess = some svc ∧
      secFind svc "mode" = some (some ms) ∧
      PeerMode.from_str ms = Except.ok pm ∧
      bgppeerOf svc pm = Res.ok bp ∧
      bmppeerOf svc pm = Res.ok mp ∧
      protolistenOf svc pm = Res.ok pl ∧
      routeridOf svc = Res.ok rid ∧
      bgppeerasOf svc = Res.ok pas ∧
      httplistenOf m = Res.ok hl ∧
      historydepthOf m = Res.ok hd ∧
      historymodeOf m = Res.ok hm ∧
      purgeAfterWithdrawsOf m = Res.ok paw ∧
      purgeEveryOf m = Res.ok pe ∧
      secFind m "whoisjsonconfig" = some (some s) ∧ wfp s = none := by
  unfold SvcConfig.from_inifile loadFields at h
  repeat' split at h
  all_goals try (cases h)
  all_goals first
  | exact absurd (by assumption) (bgppeerOf_ne_panicked _ _)
  | exact absurd (by assumption) (bmppeerOf_ne_panicked _ _)
  | exact absurd (by assumption) (protolistenOf_ne_panicked _ _)
  | exact absurd (by assumption) (routeridOf_ne_panicked _)
  | exact absurd (by assumption) (bgppeerasOf_ne_panicked _)
  | exact absurd (by assumption) (httplistenOf_ne_panicked _)
  | exact absurd (by assumption) (historydepthOf_ne_panicked _)
  | exact absurd (by assumption) (historymodeOf_ne_panicked _)
  | exact absurd (by assumption) (purgeAfterWithdrawsOf_ne_panicked _)
  | exact absurd (by assumption) (purgeEveryOf_ne_panicked _)
  | exact absurd (by assumption) (whoisdbOf_ne_panicked _)
  | exact absurd (by assumption) (whoisdnsesOf_ne_panicked _)
  | (obtain ⟨s, hkey, hnone⟩ := whoisOf_panicked_inv _ _ (by assumption)
     exact ⟨_, _, _, _, _, _, _, _, _, _, _, _, _, _, _, s, by assumption,
       by assumption, by assumption, by assumption, by assumption, by assumption,
       by assumption, by assumption, by assumption, by assumption, by assumption,
       by assumption, by assumption, by assumption, by assumption, hkey, hnone⟩)

/-- Successful field chain: every field of the result is its block's
successful outcome. -/
theorem loadFields_ok_inv (m svc : IniSection) (ms : String)
    (wfp : String → Option WhoIs) (cfg : SvcConfig)
    (h : loadFields m svc ms wfp = Res.ok cfg) :
    PeerMode.from_str ms = Except.ok cfg.peermode ∧
    bgppeerOf svc cfg.peermode = Res.ok cfg.bgppeer ∧
    bmppeerOf svc cfg.peermode = Res.ok cfg.bmppeer ∧
    protolistenOf svc cfg.peermode = Res.ok cfg.protolisten ∧
    routeridOf svc = Res.ok cfg.routerid ∧
    bgppeerasOf svc = Res.ok cfg.bgppeeras ∧
    httplistenOf m = Res.ok cfg.httplisten ∧
    cfg.httptimeout = httptimeoutOf m ∧
    cfg.httproot = httprootOf m ∧
    historydepthOf m = Res.ok cfg.historydepth ∧
    historymodeOf m = Res.ok cfg.historymode ∧
    purgeAfterWithdrawsOf m = Res.ok cfg.purge_after_withdraws ∧
    purgeEveryOf m = Res.ok cfg.purge_every ∧
    cfg.whoisreqtimeout = whoisreqtimeoutOf m ∧
    cfg.whoiscachesecs = whoiscachesecsOf m ∧
    whoisOf m wfp = Res.ok cfg.whoisconfig ∧
    whoisdbOf m = Res.ok cfg.whoisdb ∧
    whoisdnsesOf m = Res.ok cfg.whoisdnses := by
  unfold loadFields at h
  repeat' split at h
  all_goals try (cases h)
  exact ⟨by assumption, by assumption, by assumption, by assumption,
    by assumption, by assumption, by assumption, rfl, rfl, by assumption,
    by assumption, by assumption, by assumption, rfl, rfl, by assumption,
    by assumption, by assumption⟩

/-- The field chain aborts only through the `whoisjsonconfig` unwrap,
with every earlier block successful. -/
theorem loadFields_panicked_inv (m svc : IniSection) (ms : String)
    (wfp : String → Option WhoIs)
    (h : loadFields m svc ms wfp = Res.panicked) :
    ∃ pm bp mp pl rid pas hl hd hm paw pe s,
      PeerMode.from_str ms = Except.ok pm ∧
      bgppeerOf svc pm = Res.ok bp ∧
      bmppeerOf svc pm = Res.ok mp ∧
      protolistenOf svc pm = Res.ok pl ∧
      routeridOf svc = Res.ok rid ∧
      bgppeerasOf svc = Res.ok pas ∧
      httplistenOf m = Res.ok hl ∧
      historydepthOf m = Res.ok hd ∧
      historymodeOf m = Res.ok hm ∧
      purgeAfterWithdrawsOf m = Res.ok paw ∧
      purgeEveryOf m = Res.ok pe ∧
      secFind m "whoisjsonconfig" = some (some s) ∧ wfp s = none := by
  unfold loadFields at h
  repeat' split at h
  all_goals try (cases h)
  all_goals first
  | exact absurd (by assumption) (bgppeerOf_ne_panicked _ _)
  | exact absurd (by assumption) (bmppeerOf_ne_panicked _ _)
  | exact absurd (by assumption) (protolistenOf_ne_panicked _ _)
  | exact absurd (by assumption) (routeridOf_ne_panicked _)
  | exact absurd (by assumption) (bgppeerasOf_ne_panicked _)
  | exact absurd (by assumption) (httplistenOf_ne_panicked _)
  | exact absurd (by assumption) (historydepthOf_ne_panicked _)
  | exact absurd (by assumption) (historymodeOf_ne_panicked _)
  | exact absurd (by assumption) (purgeAfterWithdrawsOf_ne_panicked _)
  | exact absurd (by assumption) (purgeEveryOf_ne_panicked _)
  | exact absurd (by assumption) (whoisdbOf_ne_panicked _)
  | exact absurd (by assumption) (whoisdnsesOf_ne_panicked _)
  | (obtain ⟨s, hkey, hnone⟩ := whoisOf_panicked_inv _ _ (by assumption)
     exact ⟨_, _, _, _, _, _, _, _, _, _, _, s, by assumption, by assumption,
       by assumption, by assumption, by assumption, by assumption,
       by assumption, by assumption, by assumption, by assumption,
       by assumption, hkey, hnone⟩)

/-!  ## Concrete fixtures -/

/-- A minimal passive-mode session section. -/
def svcFix : IniSection :=
  [("mode", some "bgppassive"), ("protolisten", some "127.0.0.1:1790")]

/-- A minimal main section. -/
def mainFix : IniSection :=
  [("session", some "s"), ("whoisjsonconfig", some "wj")]

/-- A parsed mapping built from a session section and extra main keys. -/
def mkConf (svc mainExtra : IniSection) : IniFile :=
  [("main", mainFix ++ mainExtra), ("s", svc)]

/-- A minimal well-formed parsed mapping. -/
def confFix : IniFile := mkConf svcFix []

/-- A whois-load oracle that always succeeds. -/
def wfpOk : String → Option WhoIs := fun p => some ⟨p⟩

/-- A whois-load oracle that always fails. -/
def wfpFail : String → Option WhoIs := fun _ => none

/-!  ## C1: fate of the whois JSON configuration -/

/-- C1 counterexample: on a mapping whose `whoisjsonconfig` key is
present in `[main]` with a value, with the whois JSON load failing, the
load neither succeeds nor returns an error: it is the abort outcome
(the source unwraps `WhoIs::from_path`), contradicting the claim that
such a failure is fatal only by a returned error value. -/
theorem claim_C1_counterexample :
    SvcConfig.from_inifile confFix wfpFail = Res.panicked ∧
    (∀ c, SvcConfig.from_inifile confFix wfpFail ≠ Res.ok c) ∧
    (∀ e, SvcConfig.from_inifile confFix wfpFail ≠ Res.err e) := by
  have h : SvcConfig.from_inifile confFix wfpFail = Res.panicked := by decide
  refine ⟨h, fun c hc => ?_, fun e he => ?_⟩
  · rw [h] at hc
    cases hc
  · rw [h] at he
    cases he

/-- C1 amended: absence of the `whoisjsonconfig` key (or a valueless
key) returns the error `Invalid whoisjsonconfig`; but a present value
whose whois JSON load fails is fatal by process abort (the `unwrap`
panic), never by a returned error value — and an abort of the whole
load happens only that way. -/
theorem claim_C1_whoisjsonconfig :
    (∀ (m : IniSection) (wfp : String → Option WhoIs),
        secFind m "whoisjsonconfig" = none →
        whoisOf m wfp = Res.err (ErrorConfig.static "Invalid whoisjsonconfig")) ∧
    (∀ (m : IniSection) (wfp : String → Option WhoIs),
        secFind m "whoisjsonconfig" = some none →
        whoisOf m wfp = Res.err (ErrorConfig.static "Invalid whoisjsonconfig")) ∧
    (∀ (m : IniSection) (wfp : String → Option WhoIs) (s : String),
        secFind m "whoisjsonconfig" = some (some s) → wfp s = none →
        whoisOf m wfp = Res.panicked) ∧
    (∀ (conf : IniFile) (wfp : String → Option WhoIs),
        SvcConfig.from_inifile conf wfp = Res.panicked →
        ∃ m s, iniFind conf "main" = some m ∧
          secFind m "whoisjsonconfig" = some (some s) ∧ wfp s = none) := by
  refine ⟨?_, ?_, ?_, ?_⟩
  · intro m wfp h
    simp [whoisOf, h, ErrorConfig.from_str]
  · intro m wfp h
    simp [whoisOf, h, ErrorConfig.from_str]
  · intro m wfp s h hn
    simp [whoisOf, h, hn]
  · intro conf wfp h
    obtain ⟨m, sess, svc, ms, pm, bp, mp, pl, rid, pas, hl, hd, hm, paw, pe, s,
      h1, h2, h3, h4, _, _, _, _, _, _, _, _, _, _, _, hkey, hnone⟩ :=
      from_inifile_panicked_inv conf wfp h
    exact ⟨m, s, h1, hkey, hnone⟩

/-- Did the load return a configuration? -/
def Res.isOk {α : Type} : Res α → Bool
  | Res.ok _ => true
  | Res.err _ => false
  | Res.panicked => false

/-!  ## C2: mode-dependent required address fields -/

/-- C2: under `BgpActive` a missing `bgppeer` is the named fatal error;
under `BmpActive` a missing `bmppeer` fails the load; under either
passive mode a missing `protolisten` fails the load; an absent address
field in a successful load is `none`, never a defaulted socket.  The
final conjuncts check the four minimal mappings: supplying exactly the
required field loads, omitting it fails with the named error. -/
theorem claim_C2_mode_required_fields :
    (∀ (conf : IniFile) (wfp : String → Option WhoIs) (m svc : IniSection)
        (sess ms : String),
        iniFind conf "main" = some m →
        secFind m "session" = some (some sess) →
        iniFind conf sess = some svc →
        secFind svc "mode" = some (some ms) →
        PeerMode.from_str ms = Except.ok PeerMode.BgpActive →
        secFind svc "bgppeer" = none →
        SvcConfig.from_inifile conf wfp =
          Res.err (ErrorConfig.static "bgppeer was not specified")) ∧
    (∀ (conf : IniFile) (wfp : String → Option WhoIs) (m svc : IniSection)
        (sess ms : String),
        iniFind conf "main" = some m →
        secFind m "session" = some (some sess) →
        iniFind conf sess = some svc →
        secFind svc "mode" = some (some ms) →
        PeerMode.from_str ms = Except.ok PeerMode.BmpActive →
        secFind svc "bmppeer" = none →
        ∃ e, SvcConfig.from_inifile conf wfp = Res.err e) ∧
    (∀ (conf : IniFile) (wfp : String → Option WhoIs) (m svc : IniSection)
        (sess ms : String),
        iniFind conf "main" = some m →
        secFind m "session" = some (some sess) →
        iniFind conf sess = some svc →
        secFind svc "mode" = some (some ms) →
        (PeerMode.from_str ms = Except.ok PeerMode.BgpPassive ∨
         PeerMode.from_str ms = Except.ok PeerMode.BmpPassive) →
        secFind svc "protolisten" = none →
        ∃ e, SvcConfig.from_inifile conf wfp = Res.err e) ∧
    (∀ (conf : IniFile) (wfp : String → Option WhoIs) (cfg : SvcConfig)
        (m svc : IniSection) (sess ms : String),
        iniFind conf "main" = some m →
        secFind m "session" = some (some sess) →
        iniFind conf sess = some svc →
        secFind svc "mode" = some (some ms) →
        SvcConfig.from_inifile conf wfp = Res.ok cfg →
        (secFind svc "bgppeer" = none → cfg.bgppeer = none) ∧
        (secFind svc "bmppeer" = none → cfg.bmppeer = none) ∧
        (secFind svc "protolisten" = none → cfg.protolisten = none)) ∧
    ((SvcConfig.from_inifile
        (mkConf [("mode", some "bgpactive"), ("bgppeer", some "10.0.0.1:179")] [])
        wfpOk).isOk = true ∧
     SvcConfig.from_inifile (mkConf [("mode", some "bgpactive")] []) wfpOk =
       Res.err (ErrorConfig.static "bgppeer was not specified") ∧
     (SvcConfig.from_inifile
        (mkConf [("mode", some "bmpactive"), ("bmppeer", some "10.0.0.1:632")] [])
        wfpOk).isOk = true ∧
     SvcConfig.from_inifile (mkConf [("mode", some "bmpactive")] []) wfpOk =
       Res.err (ErrorConfig.static "bmppeer was not specified") ∧
     (SvcConfig.from_inifile
        (mkConf [("mode", some "bgppassive"), ("protolisten", some "0.0.0.0:179")] [])
        wfpOk).isOk = true ∧
     SvcConfig.from_inifile (mkConf [("mode", some "bgppassive")] []) wfpOk =
       Res.err (ErrorConfig.static "protolisten was not specified") ∧
     (SvcConfig.from_inifile
        (mkConf [("mode", some "bmppassive"), ("protolisten", some "0.0.0.0:179")] [])
        wfpOk).isOk = true ∧
     SvcConfig.from_inifile (mkConf [("mode", some "bmppassive")] []) wfpOk =
       Res.err (ErrorConfig.static "protolisten was not specified")) := by
  refine ⟨?_, ?_, ?_, ?_, by decide⟩
  · intro conf wfp m svc sess ms hmain hsess hsvc hmode hpm habs
    rw [from_inifile_resolve conf wfp m svc sess ms hmain hsess hsvc hmode]
    simp [loadFields, hpm, bgppeerOf, habs, ErrorConfig.from_str]
  · intro conf wfp m svc sess ms hmain hsess hsvc hmode hpm habs
    rw [from_inifile_resolve conf wfp m svc sess ms hmain hsess hsvc hmode]
    cases hres : loadFields m svc ms wfp with
    | err e => exact ⟨e, rfl⟩
    | ok cfg =>
      obtain ⟨hpm', hbgp', hbmp', _⟩ := loadFields_ok_inv m svc ms wfp cfg hres
      rw [hpm] at hpm'
      injection hpm' with hpmeq
      rw [← hpmeq] at hbmp'
      simp [bmppeerOf, habs] at hbmp'
    | panicked =>
      obtain ⟨pm, bp, mp, pl, rid, pas, hl, hd, hm, paw, pe, s, hpm', hbgp',
        hbmp', _⟩ := loadFields_panicked_inv m svc ms wfp hres
      rw [hpm] at hpm'
      injection hpm' with hpmeq
      rw [← hpmeq] at hbmp'
      simp [bmppeerOf, habs] at hbmp'
  · intro conf wfp m svc sess ms hmain hsess hsvc hmode hpm habs
    rw [from_inifile_resolve conf wfp m svc sess ms hmain hsess hsvc hmode]
    cases hres : loadFields m svc ms wfp with
    | err e => exact ⟨e, rfl⟩
    | ok cfg =>
      obtain ⟨hpm', hbgp', hbmp', hpl', _⟩ := loadFields_ok_inv m svc ms wfp cfg hres
      cases hpm with
      | inl hpm =>
        rw [hpm] at hpm'
        injection hpm' with hpmeq
        rw [← hpmeq] at hpl'
        simp [protolistenOf, habs] at hpl'
      | inr hpm =>
        rw [hpm] at hpm'
        injection hpm' with hpmeq
        rw [← hpmeq] at hpl'
        simp [protolistenOf, habs] at hpl'
    | panicked =>
      obtain ⟨pm, bp, mp, pl, rid, pas, hl, hd, hm, paw, pe, s, hpm', hbgp',
        hbmp', hpl', _⟩ := loadFields_panicked_inv m svc ms wfp hres
      cases hpm with
      | inl hpm =>
        rw [hpm] at hpm'
        injection hpm' with hpmeq
        rw [← hpmeq] at hpl'
        simp [protolistenOf, habs] at hpl'
      | inr hpm =>
        rw [hpm] at hpm'
        injection hpm' with hpmeq
        rw [← hpmeq] at hpl'
        simp [protolistenOf, habs] at hpl'
  · intro conf wfp cfg m svc sess ms hmain hsess hsvc hmode hok
    rw [from_inifile_resolve conf wfp m svc sess ms hmain hsess hsvc hmode] at hok
    obtain ⟨hpm', hbgp', hbmp', hpl', _⟩ := loadFields_ok_inv m svc ms wfp cfg hok
    refine ⟨fun habs => ?_, fun habs => ?_, fun habs => ?_⟩
    · simp only [bgppeerOf, habs] at hbgp'
      split at hbgp'
      · cases hbgp'
      · injection hbgp' with hh
        exact hh.symm
    · simp only [bmppeerOf, habs] at hbmp'
      split at hbmp'
      · cases hbmp'
      · injection hbmp' with hh
        exact hh.symm
    · simp only [protolistenOf, habs] at hpl'
      split at hpl'
      · cases hpl'
      · injection hpl' with hh
        exact hh.symm

/-- The returned configuration of a load, when there is one. -/
def Res.getOk {α : Type} : Res α → Option α
  | Res.ok a => some a
  | Res.err _ => none
  | Res.panicked => none

/-!  ## C3: the whois DNS resolver list -/

/-- Modelled from the claim's wording (no trimming): each comma-split
entry parsed first as a full socket address, else as the entry suffixed
with `":53"`. -/
def parseDnsEntrySpec (cs : List Char) : Option SocketAddr :=
  match parseSocketAddrCore cs with
  | some sck => some sck
  | none => parseSocketAddrCore (cs ++ ":53".data)

/-- The fallback push yields a nonempty list. -/
theorem finishDnses_ok_ne_nil (d l : List SocketAddr)
    (h : finishDnses d = Res.ok l) : l ≠ [] := by
  unfold finishDnses at h
  split at h
  · rw [show parseSocketAddr "1.1.1.1:53" =
      some ⟨IpAddr.v4 ⟨1, 1, 1, 1⟩, 53⟩ from rfl] at h
    injection h with hh
    subst hh
    simp
  · rename_i hne
    injection h with hh
    subst hh
    intro hc
    rw [hc] at hne
    exact hne rfl

/-- A successful `whoisdns` block never yields an empty list. -/
theorem whoisdnsesOf_ok_ne_nil (m : IniSection) (l : List SocketAddr)
    (h : whoisdnsesOf m = Res.ok l) : l ≠ [] := by
  unfold whoisdnsesOf at h
  split at h
  · cases h
  · exact finishDnses_ok_ne_nil _ _ h
  · exact finishDnses_ok_ne_nil _ _ h

/-- C3 counterexample: on `whoisdns = " 8.8.8.8"` every comma-split
entry fails both parses of the claim's description (no trimming), so
the claim predicts the fallback list `[1.1.1.1:53]`; the code trims the
entry first and the load yields `[8.8.8.8:53]`. -/
theorem claim_C3_counterexample :
    (splitChar ',' " 8.8.8.8".data).filterMap parseDnsEntrySpec = [] ∧
    (SvcConfig.from_inifile (mkConf svcFix [("whoisdns", some " 8.8.8.8")])
        wfpOk).getOk.map SvcConfig.whoisdnses =
      some [⟨IpAddr.v4 ⟨8, 8, 8, 8⟩, 53⟩] ∧
    ([(⟨IpAddr.v4 ⟨8, 8, 8, 8⟩, 53⟩ : SocketAddr)] ≠
      [(⟨IpAddr.v4 ⟨1, 1, 1, 1⟩, 53⟩ : SocketAddr)]) := by
  decide

/-- C3 amended: on every successful load `whoisdnses` is non-empty;
each comma-separated `whoisdns` entry is trimmed of surrounding
whitespace and then parsed first as a full socket address, else as the
trimmed entry suffixed with `":53"`, an entry failing both being
dropped without failing the load; if the key is absent or every entry
fails both parses, the list is exactly `[1.1.1.1:53]`. -/
theorem claim_C3_whoisdnses :
    (∀ (conf : IniFile) (wfp : String → Option WhoIs) (cfg : SvcConfig),
        SvcConfig.from_inifile conf wfp = Res.ok cfg → cfg.whoisdnses ≠ []) ∧
    (∀ m : IniSection, secFind m "whoisdns" = none →
        whoisdnsesOf m = Res.ok [⟨IpAddr.v4 ⟨1, 1, 1, 1⟩, 53⟩]) ∧
    (∀ (m : IniSection) (s : String),
        secFind m "whoisdns" = some (some s) →
        ∃ l, whoisdnsesOf m = Res.ok l) ∧
    (∀ (m : IniSection) (s : String),
        secFind m "whoisdns" = some (some s) →
        (∀ e ∈ splitChar ',' s.data, parseDnsEntry e = none) →
        whoisdnsesOf m = Res.ok [⟨IpAddr.v4 ⟨1, 1, 1, 1⟩, 53⟩]) ∧
    (SvcConfig.from_inifile
        (mkConf svcFix [("whoisdns", some "8.8.8.8, badvalue, 9.9.9.9")])
        wfpOk).getOk.map SvcConfig.whoisdnses =
      some [⟨IpAddr.v4 ⟨8, 8, 8, 8⟩, 53⟩, ⟨IpAddr.v4 ⟨9, 9, 9, 9⟩, 53⟩] := by
  refine ⟨?_, ?_, ?_, ?_, by decide⟩
  · intro conf wfp cfg h
    obtain ⟨m, sess, svc, ms, h1, h2, h3, h4, _, _, _, _, _, _, _, _, _, _, _,
      _, _, _, _, _, _, hdns⟩ := from_inifile_ok_inv conf wfp cfg h
    exact whoisdnsesOf_ok_ne_nil m cfg.whoisdnses hdns
  · intro m h
    simp only [whoisdnsesOf, h]
    rfl
  · intro m s h
    simp only [whoisdnsesOf, h]
    cases hres : finishDnses ((splitChar ',' s.data).filterMap parseDnsEntry) with
    | ok l => exact ⟨l, rfl⟩
    | err e =>
      exfalso
      unfold finishDnses at hres
      split at hres
      · rw [show parseSocketAddr "1.1.1.1:53" =
          some ⟨IpAddr.v4 ⟨1, 1, 1, 1⟩, 53⟩ from rfl] at hres
        cases hres
      · cases hres
    | panicked => exact absurd hres (finishDnses_ne_panicked _)
  · intro m s h hall
    simp only [whoisdnsesOf, h]
    rw [List.filterMap_eq_nil_iff.mpr hall]
    rfl

/-- An error outcome of one of the fail-fast main/session numeric or
enum blocks makes the whole load return an error (first failure aborts;
no later block can turn it into success or an abort). -/
theorem fieldErr_fails (conf : IniFile) (wfp : String → Option WhoIs)
    (m svc : IniSection) (sess ms : String) (e : ErrorConfig)
    (hmain : iniFind conf "main" = some m)
    (hsess : secFind m "session" = some (some sess))
    (hsvc : iniFind conf sess = some svc)
    (hmode : secFind svc "mode" = some (some ms))
    (hb : bgppeerasOf svc = Res.err e ∨
          historydepthOf m = Res.err e ∨
          historymodeOf m = Res.err e ∨
          purgeAfterWithdrawsOf m = Res.err e ∨
          purgeEveryOf m = Res.err e) :
    ∃ e2, SvcConfig.from_inifile conf wfp = Res.err e2 := by
  rw [from_inifile_resolve conf wfp m svc sess ms hmain hsess hsvc hmode]
  cases hres : loadFields m svc ms wfp with
  | err e2 => exact ⟨e2, rfl⟩
  | ok cfg =>
    exfalso
    obtain ⟨_, _, _, _, _, hpas, _, _, _, hhd, hhm, hpaw, hpe, _, _, _, _, _⟩ :=
      loadFields_ok_inv m svc ms wfp cfg hres
    rcases hb with hb | hb | hb | hb | hb
    · rw [hb] at hpas
      cases hpas
    · rw [hb] at hhd
      cases hhd
    · rw [hb] at hhm
      cases hhm
    · rw [hb] at hpaw
      cases hpaw
    · rw [hb] at hpe
      cases hpe
  | panicked =>
    exfalso
    obtain ⟨pm, bp, mp, pl, rid, pas, hl, hd, hm, paw, pe, s, hpm, hbp, hmp,
      hpl, hrid, hpas, hhl, hhd, hhm, hpaw, hpe, hkey, hnone⟩ :=
      loadFields_panicked_inv m svc ms wfp hres
    rcases hb with hb | hb | hb | hb | hb
    · rw [hb] at hpas
      cases hpas
    · rw [hb] at hhd
      cases hhd
    · rw [hb] at hhm
      cases hhm
    · rw [hb] at hpaw
      cases hpaw
    · rw [hb] at hpe
      cases hpe

/-!  ## C4: silent-default versus fail-fast numeric fields -/

/-- C4: a present-but-unparseable `httptimeout`, `whois_request_timeout`
or `whois_cache_seconds` silently yields 120, 30, 1800 respectively,
while a present-but-unparseable `historydepth`, `peeras`,
`purge_after_withdraws` or `purge_every` is an error that fails the
load.  The closing conjuncts run the spec's two examples. -/
theorem claim_C4_numeric_parse_failures :
    (∀ (m : IniSection) (s : String), secFind m "httptimeout" = some (some s) →
        parseU64 s = none → httptimeoutOf m = 120) ∧
    (∀ (m : IniSection) (s : String),
        secFind m "whois_request_timeout" = some (some s) →
        parseU64 s = none → whoisreqtimeoutOf m = 30) ∧
    (∀ (m : IniSection) (s : String),
        secFind m "whois_cache_seconds" = some (some s) →
        parseI64 s = none → whoiscachesecsOf m = 1800) ∧
    (∀ (m : IniSection) (s : String), secFind m "historydepth" = some (some s) →
        parseUsize s = none →
        historydepthOf m =
          Res.err (ErrorConfig.str "Invalid historydepth - invalid value")) ∧
    (∀ (svc : IniSection) (s : String), secFind svc "peeras" = some (some s) →
        parseU32 s = none →
        bgppeerasOf svc =
          Res.err (ErrorConfig.str "Invalid bgp peer as - invalid value")) ∧
    (∀ (m : IniSection) (s : String),
        secFind m "purge_after_withdraws" = some (some s) →
        parseU64 s = none →
        purgeAfterWithdrawsOf m =
          Res.err (ErrorConfig.str "Invalid purge_after_withdraws - invalid value")) ∧
    (∀ (m : IniSection) (s : String), secFind m "purge_every" = some (some s) →
        parseI64 s = none →
        purgeEveryOf m =
          Res.err (ErrorConfig.str "Invalid purge_every - invalid value")) ∧
    (∀ (conf : IniFile) (wfp : String → Option WhoIs) (m svc : IniSection)
        (sess ms : String) (e : ErrorConfig),
        iniFind conf "main" = some m →
        secFind m "session" = some (some sess) →
        iniFind conf sess = some svc →
        secFind svc "mode" = some (some ms) →
        (bgppeerasOf svc = Res.err e ∨
         historydepthOf m = Res.err e ∨
         purgeAfterWithdrawsOf m = Res.err e ∨
         purgeEveryOf m = Res.err e) →
        ∃ e2, SvcConfig.from_inifile conf wfp = Res.err e2) ∧
    ((SvcConfig.from_inifile (mkConf svcFix [("httptimeout", some "notanumber")])
        wfpOk).getOk.map SvcConfig.httptimeout = some 120 ∧
     SvcConfig.from_inifile (mkConf svcFix [("historydepth", some "notanumber")])
        wfpOk =
       Res.err (ErrorConfig.str "Invalid historydepth - invalid value")) := by
  refine ⟨?_, ?_, ?_, ?_, ?_, ?_, ?_, ?_, by decide⟩
  · intro m s h hp
    simp [httptimeoutOf, h, hp]
  · intro m s h hp
    simp [whoisreqtimeoutOf, h, hp]
  · intro m s h hp
    simp [whoiscachesecsOf, h, hp]
  · intro m s h hp
    simp [historydepthOf, h, hp, ErrorConfig.from_string]
  · intro svc s h hp
    simp [bgppeerasOf, h, hp, ErrorConfig.from_string]
  · intro m s h hp
    simp [purgeAfterWithdrawsOf, h, hp, ErrorConfig.from_string]
  · intro m s h hp
    simp [purgeEveryOf, h, hp, ErrorConfig.from_string]
  · intro conf wfp m svc sess ms e hmain hsess hsvc hmode hb
    refine fieldErr_fails conf wfp m svc sess ms e hmain hsess hsvc hmode ?_
    rcases hb with hb | hb | hb | hb
    · exact Or.inl hb
    · exact Or.inr (Or.inl hb)
    · exact Or.inr (Or.inr (Or.inr (Or.inl hb)))
    · exact Or.inr (Or.inr (Or.inr (Or.inr hb)))

/-!  ## C5: bare-IP fallback with field-specific default ports -/

/-- C5: a session address value that fails the full socket-address
parse but parses as a bare IP is paired with the field's default port:
179 for `bgppeer`, 632 for `bmppeer`, 179 for `protolisten`.  The
closing conjuncts run the spec's two examples (`10.0.0.1` under
`bgpactive` and under `bmpactive`). -/
theorem claim_C5_bare_ip_ports :
    (∀ (svc : IniSection) (pm : PeerMode) (s : String) (ip : IpAddr),
        secFind svc "bgppeer" = some (some s) →
        parseSocketAddr s = none → parseIpAddr s = some ip →
        bgppeerOf svc pm = Res.ok (some ⟨ip, 179⟩)) ∧
    (∀ (svc : IniSection) (pm : PeerMode) (s : String) (ip : IpAddr),
        secFind svc "bmppeer" = some (some s) →
        parseSocketAddr s = none → parseIpAddr s = some ip →
        bmppeerOf svc pm = Res.ok (some ⟨ip, 632⟩)) ∧
    (∀ (svc : IniSection) (pm : PeerMode) (s : String) (ip : IpAddr),
        secFind svc "protolisten" = some (some s) →
        parseSocketAddr s = none → parseIpAddr s = some ip →
        protolistenOf svc pm = Res.ok (some ⟨ip, 179⟩)) ∧
    ((SvcConfig.from_inifile
        (mkConf [("mode", some "bgpactive"), ("bgppeer", some "10.0.0.1")] [])
        wfpOk).getOk.map SvcConfig.bgppeer =
      some (some ⟨IpAddr.v4 ⟨10, 0, 0, 1⟩, 179⟩) ∧
     (SvcConfig.from_inifile
        (mkConf [("mode", some "bmpactive"), ("bmppeer", some "10.0.0.1")] [])
        wfpOk).getOk.map SvcConfig.bmppeer =
      some (some ⟨IpAddr.v4 ⟨10, 0, 0, 1⟩, 632⟩)) := by
  refine ⟨?_, ?_, ?_, by decide⟩
  · intro svc pm s ip h hsa hip
    simp [bgppeerOf, h, hsa, hip]
  · intro svc pm s ip h hsa hip
    simp [bmppeerOf, h, hsa, hip]
  · intro svc pm s ip h hsa hip
    simp [protolistenOf, h, hsa, hip]

/-!  ## C6: protolisten's silent 0.0.0.0 fallback -/

/-- C6: a `protolisten` value failing both the socket-address and the
bare-IP parse does not fail the load — the field becomes `0.0.0.0` with
the default port 179 — while the same double failure on `bgppeer` or
`bmppeer` is the named fatal error.  The closing conjuncts run a load
with `protolisten = "garbage"` (succeeds, 0.0.0.0:179) and with
`bgppeer = "garbage"` (fails). -/
theorem claim_C6_protolisten_fallback :
    (∀ (svc : IniSection) (pm : PeerMode) (s : String),
        secFind svc "protolisten" = some (some s) →
        parseSocketAddr s = none → parseIpAddr s = none →
        protolistenOf svc pm =
          Res.ok (some ⟨IpAddr.v4 ⟨0, 0, 0, 0⟩, 179⟩)) ∧
    (∀ (svc : IniSection) (pm : PeerMode) (s : String),
        secFind svc "bgppeer" = some (some s) →
        parseSocketAddr s = none → parseIpAddr s = none →
        bgppeerOf svc pm =
          Res.err (ErrorConfig.static "invalid bgppeer was specified")) ∧
    (∀ (svc : IniSection) (pm : PeerMode) (s : String),
        secFind svc "bmppeer" = some (some s) →
        parseSocketAddr s = none → parseIpAddr s = none →
        bmppeerOf svc pm =
          Res.err (ErrorConfig.static "invalid bmppeer was specified")) ∧
    ((SvcConfig.from_inifile
        (mkConf [("mode", some "bgppassive"), ("protolisten", some "garbage")] [])
        wfpOk).getOk.map SvcConfig.protolisten =
      some (some ⟨IpAddr.v4 ⟨0, 0, 0, 0⟩, 179⟩) ∧
     SvcConfig.from_inifile
        (mkConf [("mode", some "bgppassive"), ("protolisten", some "0.0.0.0:179"),
                 ("bgppeer", some "garbage")] [])
        wfpOk =
      Res.err (ErrorConfig.static "invalid bgppeer was specified")) := by
  refine ⟨?_, ?_, ?_, by decide⟩
  · intro svc pm s h hsa hip
    simp [protolistenOf, h, hsa, hip]
  · intro svc pm s h hsa hip
    simp [bgppeerOf, h, hsa, hip, ErrorConfig.from_str]
  · intro svc pm s h hsa hip
    simp [bmppeerOf, h, hsa, hip, ErrorConfig.from_str]

/-!  ## C8: historymode defaulting versus failing -/

/-- C8: an absent `historymode` key yields `OnlyDiffer`; a present value
with first piece `every` yields `EveryUpdate`; a present value whose
first piece is neither `every` nor `differ` is an error that fails the
load rather than defaulting.  The closing conjuncts run the spec's
three examples. -/
theorem claim_C8_historymode :
    (∀ m : IniSection, secFind m "historymode" = none →
        historymodeOf m = Res.ok HistoryChangeMode.OnlyDiffer) ∧
    (∀ (m : IniSection) (s : String) (ts : List (List Char)),
        secFind m "historymode" = some (some s) →
        splitChar ' ' s.data = "every".data :: ts →
        historymodeOf m = Res.ok HistoryChangeMode.EveryUpdate) ∧
    (∀ (m : IniSection) (s : String) (t : List Char) (ts : List (List Char)),
        secFind m "historymode" = some (some s) →
        splitChar ' ' s.data = t :: ts →
        t ≠ "every".data → t ≠ "differ".data →
        historymodeOf m =
          Res.err (ErrorConfig.str
            "Invalid historymode - ErrorConfig: invalid history mode")) ∧
    (∀ (conf : IniFile) (wfp : String → Option WhoIs) (m svc : IniSection)
        (sess ms : String) (e : ErrorConfig),
        iniFind conf "main" = some m →
        secFind m "session" = some (some sess) →
        iniFind conf sess = some svc →
        secFind svc "mode" = some (some ms) →
        historymodeOf m = Res.err e →
        ∃ e2, SvcConfig.from_inifile conf wfp = Res.err e2) ∧
    ((SvcConfig.from_inifile confFix wfpOk).getOk.map SvcConfig.historymode =
        some HistoryChangeMode.OnlyDiffer ∧
     (SvcConfig.from_inifile (mkConf svcFix [("historymode", some "every")])
        wfpOk).getOk.map SvcConfig.historymode =
        some HistoryChangeMode.EveryUpdate ∧
     SvcConfig.from_inifile (mkConf svcFix [("historymode", some "bogus")])
        wfpOk =
       Res.err (ErrorConfig.str
         "Invalid historymode - ErrorConfig: invalid history mode")) := by
  refine ⟨?_, ?_, ?_, ?_, by decide⟩
  · intro m h
    simp [historymodeOf, h]
  · intro m s ts h hsplit
    have hfs : HistoryChangeMode.from_str s = Except.ok HistoryChangeMode.EveryUpdate := by
      unfold HistoryChangeMode.from_str
      rw [hsplit]
      simp
    simp [historymodeOf, h, hfs]
  · intro m s t ts h hsplit h1 h2
    have hfs : HistoryChangeMode.from_str s =
        Except.error (ErrorConfig.static "invalid history mode") := by
      unfold HistoryChangeMode.from_str
      rw [hsplit]
      simp only [if_neg h1, if_neg h2]
      rfl
    simp [historymodeOf, h, hfs, ErrorConfig.from_string, ErrorConfig.display]
  · intro conf wfp m svc sess ms e hmain hsess hsvc hmode hb
    exact fieldErr_fails conf wfp m svc sess ms e hmain hsess hsvc hmode
      (Or.inr (Or.inr (Or.inl hb)))

/-!  ## C9: keys present without a value -/

/-- C9: a key present with no value is the named fatal error for
`bgppeer`, `bmppeer`, `protolisten`, `routerid`, `peeras` (whose error
says `bgppeeras`), `historydepth`, `historymode`,
`purge_after_withdraws`, `purge_every`, `whoisdb` and `whoisdns`, while
the same shape for `httplisten`, `httptimeout` and `httproot` silently
yields the fixed default instead. -/
theorem claim_C9_valueless_keys :
    (∀ (svc : IniSection) (pm : PeerMode), secFind svc "bgppeer" = some none →
        bgppeerOf svc pm =
          Res.err (ErrorConfig.static "invalid bgppeer was specified")) ∧
    (∀ (svc : IniSection) (pm : PeerMode), secFind svc "bmppeer" = some none →
        bmppeerOf svc pm =
          Res.err (ErrorConfig.static "invalid bmppeer was specified")) ∧
    (∀ (svc : IniSection) (pm : PeerMode), secFind svc "protolisten" = some none →
        protolistenOf svc pm =
          Res.err (ErrorConfig.static "invalid protolisten was specified")) ∧
    (∀ svc : IniSection, secFind svc "routerid" = some none →
        routeridOf svc =
          Res.err (ErrorConfig.static "invalid routerid was specified")) ∧
    (∀ svc : IniSection, secFind svc "peeras" = some none →
        bgppeerasOf svc =
          Res.err (ErrorConfig.static "invalid bgppeeras was specified")) ∧
    (∀ m : IniSection, secFind m "historydepth" = some none →
        historydepthOf m =
          Res.err (ErrorConfig.static "invalid historydepth was specified")) ∧
    (∀ m : IniSection, secFind m "historymode" = some none →
        historymodeOf m =
          Res.err (ErrorConfig.static "invalid historymode was specified")) ∧
    (∀ m : IniSection, secFind m "purge_after_withdraws" = some none →
        purgeAfterWithdrawsOf m =
          Res.err (ErrorConfig.static "invalid purge_after_withdraws was specified")) ∧
    (∀ m : IniSection, secFind m "purge_every" = some none →
        purgeEveryOf m =
          Res.err (ErrorConfig.static "invalid purge_every was specified")) ∧
    (∀ m : IniSection, secFind m "whoisdb" = some none →
        whoisdbOf m = Res.err (ErrorConfig.static "Invalid whoisdb")) ∧
    (∀ m : IniSection, secFind m "whoisdns" = some none →
        whoisdnsesOf m = Res.err (ErrorConfig.static "Invalid whoisdns")) ∧
    (∀ m : IniSection, secFind m "httplisten" = some none →
        httplistenOf m = Res.ok ⟨IpAddr.v4 ⟨0, 0, 0, 0⟩, 8080⟩) ∧
    (∀ m : IniSection, secFind m "httptimeout" = some none →
        httptimeoutOf m = 120) ∧
    (∀ m : IniSection, secFind m "httproot" = some none →
        httprootOf m = "./contrib") := by
  refine ⟨?_, ?_, ?_, ?_, ?_, ?_, ?_, ?_, ?_, ?_, ?_, ?_, ?_, ?_⟩
  · intro svc pm h
    simp [bgppeerOf, h, ErrorConfig.from_str]
  · intro svc pm h
    simp [bmppeerOf, h, ErrorConfig.from_str]
  · intro svc pm h
    simp [protolistenOf, h, ErrorConfig.from_str]
  · intro svc h
    simp [routeridOf, h, ErrorConfig.from_str]
  · intro svc h
    simp [bgppeerasOf, h, ErrorConfig.from_str]
  · intro m h
    simp [historydepthOf, h, ErrorConfig.from_str]
  · intro m h
    simp [historymodeOf, h, ErrorConfig.from_str]
  · intro m h
    simp [purgeAfterWithdrawsOf, h, ErrorConfig.from_str]
  · intro m h
    simp [purgeEveryOf, h, ErrorConfig.from_str]
  · intro m h
    simp [whoisdbOf, h, ErrorConfig.from_str]
  · intro m h
    simp [whoisdnsesOf, h, ErrorConfig.from_str]
  · intro m h
    simp only [httplistenOf, h]
    rfl
  · intro m h
    simp [httptimeoutOf, h]
  · intro m h
    simp [httprootOf, h]
